import Mathlib

/- Shallow embedding of the session and streaming-pipeline layer of the
depth_streamer backend (depth_streamer/backend/app): the control dispatcher,
the depth video track, the Arducam camera wrapper, the signaling server and
the peer manager.  Definitions are translated from the Python source files
named in their doc comments; theorems settle the behavioural claims about
them. -/

namespace DepthStreamer

/-- Tagged control commands, from control/messages.py: the Union of the four
dataclasses SetRangeCommand, SetConfidenceCommand, SetColormapCommand and
SetFpsLimitCommand. -/
inductive ControlCommand where
  | setRange (max_distance : Int)
  | setConfidence (threshold : Int)
  | setColormap (colormap : String)
  | setFpsLimit (fps : Int)
  deriving DecidableEq

/-- Outcome tag of a ControlResponse, the Literal of ack or error in
control/messages.py. -/
inductive RespType where
  | ack
  | error
  deriving DecidableEq

/-- ControlResponse dataclass from control/messages.py: outcome tag, the
command_type string and a human readable message. -/
structure ControlResponse where
  rtype : RespType
  command_type : String
  message : String
  deriving DecidableEq

/-- Value of the Python expression type(command).__name__.lower() evaluated on
each command shape; this string is used by the except clause of
ControlHandler.handle_command as the command_type of an error response. -/
def pyClassName : ControlCommand → String
  | .setRange _ => "setrangecommand"
  | .setConfidence _ => "setconfidencecommand"
  | .setColormap _ => "setcolormapcommand"
  | .setFpsLimit _ => "setfpslimitcommand"

/-- Effects of the camera and stream controllers as seen by ControlHandler
(the ICameraController and IStreamController protocols of
control/handlers.py), modelled as state transformers over a state type that
may raise, with Except.error carrying the exception text. -/
structure Wiring (σ : Type) where
  set_range : Int → σ → Except String σ
  set_confidence_threshold : Int → σ → Except String σ
  set_colormap : String → σ → Except String σ
  set_fps_limit : Int → σ → Except String σ

/-- Translation of ControlHandler.handle_command (control/handlers.py lines
36 to 60): dispatch over the isinstance chain; each branch awaits its
controller call and builds an ack response; the surrounding try/except
converts any exception into an error response whose command_type is the
lowercased class name and whose message is the exception text.  The final
else branch of the source handles objects outside the ControlCommand union
and is unrepresentable here, the inductive being exhaustive. -/
def handle_command {σ : Type} (w : Wiring σ) (st : σ) (cmd : ControlCommand) :
    σ × ControlResponse :=
  match cmd with
  | .setRange d =>
    match w.set_range d st with
    | .ok st2 => (st2, ⟨.ack, "set_range", "Range set to " ++ toString d⟩)
    | .error e => (st, ⟨.error, pyClassName cmd, e⟩)
  | .setConfidence t =>
    match w.set_confidence_threshold t st with
    | .ok st2 => (st2, ⟨.ack, "set_confidence_threshold",
        "Confidence threshold set to " ++ toString t⟩)
    | .error e => (st, ⟨.error, pyClassName cmd, e⟩)
  | .setColormap c =>
    match w.set_colormap c st with
    | .ok st2 => (st2, ⟨.ack, "set_colormap", "Colormap set to " ++ c⟩)
    | .error e => (st, ⟨.error, pyClassName cmd, e⟩)
  | .setFpsLimit f =>
    match w.set_fps_limit f st with
    | .ok st2 => (st2, ⟨.ack, "set_fps_limit", "FPS limit set to " ++ toString f⟩)
    | .error e => (st, ⟨.error, pyClassName cmd, e⟩)

/-- Controller call attempted inside the try block of handle_command for each
command shape, taken in isolation: the single awaited effect of the matching
isinstance branch. -/
def applyCommand {σ : Type} (w : Wiring σ) (st : σ) : ControlCommand → Except String σ
  | .setRange d => w.set_range d st
  | .setConfidence t => w.set_confidence_threshold t st
  | .setColormap c => w.set_colormap c st
  | .setFpsLimit f => w.set_fps_limit f st

/-- Payload dict of a control message; every key that to_command may read is
an optional field, a missing key raising KeyError. -/
structure Payload where
  max_distance : Option Int
  threshold : Option Int
  colormap : Option String
  fps : Option Int
  deriving DecidableEq

/-- ControlMessage dataclass of control/messages.py: a wire type tag and a
payload dict. -/
structure ControlMessage where
  mtype : String
  payload : Payload
  deriving DecidableEq

/-- Translation of ControlMessage.to_command (control/messages.py lines 50 to
60).  A missing payload key surfaces as KeyError and an unknown type tag as
ValueError, both modelled as Except.error. -/
def to_command (m : ControlMessage) : Except String ControlCommand :=
  if m.mtype = "set_range" then
    match m.payload.max_distance with
    | some d => .ok (.setRange d)
    | none => .error "KeyError: max_distance"
  else if m.mtype = "set_confidence_threshold" then
    match m.payload.threshold with
    | some t => .ok (.setConfidence t)
    | none => .error "KeyError: threshold"
  else if m.mtype = "set_colormap" then
    match m.payload.colormap with
    | some c => .ok (.setColormap c)
    | none => .error "KeyError: colormap"
  else if m.mtype = "set_fps_limit" then
    match m.payload.fps with
    | some f => .ok (.setFpsLimit f)
    | none => .error "KeyError: fps"
  else .error ("Unknown command type: " ++ m.mtype)

/-- Runtime parameter state of DepthFrameProcessor
(camera/frame_processing.py); colormap holds the cv2 integer constant. -/
structure ProcessorState where
  max_distance : Int
  confidence_threshold : Int
  colormap : Int
  deriving DecidableEq

/-- COLORMAPS class dict of DepthFrameProcessor, with the numeric values of
the cv2 colormap constants. -/
def COLORMAPS : List (String × Int) :=
  [("RAINBOW", 4), ("JET", 2), ("TURBO", 20), ("HOT", 11),
   ("COOL", 8), ("HSV", 9), ("BONE", 1)]

/-- Key lookup in the COLORMAPS dict. -/
def lookupColormap (k : String) : Option Int :=
  (COLORMAPS.find? (fun p => p.1 == k)).map (fun p => p.2)

/-- Uppercasing of a Python str, modelled over the character list (the
source applies str.upper to the colormap name). -/
def pyUpper (s : String) : String := ⟨s.data.map Char.toUpper⟩

/-- Translation of DepthFrameProcessor.set_colormap (frame_processing.py
lines 59 to 65): the given name is uppercased; a hit in COLORMAPS replaces
the colormap, a miss only logs a warning and changes nothing. -/
def set_colormap (st : ProcessorState) (colormap : String) : ProcessorState :=
  match lookupColormap (pyUpper colormap) with
  | some v => { st with colormap := v }
  | none => st

/-- Translation of DepthFrameProcessor.set_confidence_threshold
(frame_processing.py lines 54 to 57): clamp with max(0, min(255, t)). -/
def set_confidence_threshold (st : ProcessorState) (threshold : Int) : ProcessorState :=
  { st with confidence_threshold := max 0 (min 255 threshold) }

/-- Wiring in which the colormap and confidence operations of
ICameraController are implemented by DepthFrameProcessor, the runtime
parameter store these two commands target; the range and fps effects do not
touch processor state and are identity effects here, exercised by no theorem
below. -/
def procWiring : Wiring ProcessorState where
  set_range := fun _ st => .ok st
  set_confidence_threshold := fun t st => .ok (set_confidence_threshold st t)
  set_colormap := fun c st => .ok (set_colormap st c)
  set_fps_limit := fun _ st => .ok st

/-- Rendered image values handled by the video track: a numpy zeros block of
shape (height, width, 3) or an opaque processed image token. -/
inductive Frame where
  | zeros (height width : Nat)
  | img (n : Nat)
  deriving DecidableEq

/-- Mutable state of DepthVideoStreamTrack as set up by its constructor
(webrtc/video_track.py). -/
structure TrackState where
  running : Bool
  fpsLimit : Int
  frameInterval : ℚ
  lastFrameTime : ℚ
  currentFrame : Option Frame
  deriving DecidableEq

/-- Translation of DepthVideoStreamTrack.set_fps_limit (video_track.py lines
96 to 100): clamp with max(5, min(30, fps)) and recompute the interval. -/
def track_set_fps_limit (s : TrackState) (fps : Int) : TrackState :=
  let f := max 5 (min 30 fps)
  { s with fpsLimit := f, frameInterval := 1 / (f : ℚ) }

/-- CameraInfo shape (width, height) surfaced by get_camera_info. -/
structure CamInfo where
  width : Nat
  height : Nat
  deriving DecidableEq

/-- Inputs one recv tick draws from outside: the clock value read by
time.time(), the outcome of camera.request_frame with its bounded timeout
(None on sensor timeout or sensor error, as request_frame below shows), the
outcome of frame_processor.process_frame on a given raw frame token (an
exception being Except.error), and the outcome of camera.get_camera_info
(which raises RuntimeError when the camera never started).  Calls to
camera.release_frame and to next_timestamp never raise and carry no modelled
state. -/
structure TickEnv where
  currentTime : ℚ
  sensorFrame : Option Nat
  render : Nat → Except String Frame
  get_camera_info : Except String CamInfo

/-- Fallback tail of recv (video_track.py lines 81 to 94): the cached frame
when one exists, else a zeros image shaped (height, width) by
get_camera_info, else zeros of the hard coded shape (180, 240). -/
def fallbackFrame (env : TickEnv) (s : TrackState) : Frame × TrackState :=
  match s.currentFrame with
  | some f => (f, s)
  | none =>
    match env.get_camera_info with
    | .ok info => (Frame.zeros info.height info.width, s)
    | .error _ => (Frame.zeros 180 240, s)

/-- Frame request and processing segment of recv (video_track.py lines 57 to
94): a delivered frame is processed, cached, time stamped and returned; a
processing exception is caught, the raw frame released, and control drops to
the fallback tail, as it does when no frame was delivered. -/
def requestAndRender (env : TickEnv) (s : TrackState) : Frame × TrackState :=
  match env.sensorFrame with
  | some raw =>
    match env.render raw with
    | .ok processed =>
      (processed, { s with currentFrame := some processed,
                           lastFrameTime := env.currentTime })
    | .error _ => fallbackFrame env s
  | none => fallbackFrame env s

/-- Translation of DepthVideoStreamTrack.recv (video_track.py lines 36 to
94): a stopped track returns a black 480 by 640 frame; a tick arriving
inside the rate limit interval returns the cached frame when present, and
otherwise sleeps out the remaining interval and falls through to the request
path; outside the interval a new frame is requested and rendered, with the
fallback tail on failure. -/
def recv (env : TickEnv) (s : TrackState) : Frame × TrackState :=
  if s.running = false then
    (Frame.zeros 480 640, s)
  else if env.currentTime - s.lastFrameTime < s.frameInterval then
    match s.currentFrame with
    | some f => (f, s)
    | none => requestAndRender env s
  else requestAndRender env s

/-- Failing tick condition of the fallback claim: the sensor request
delivered no frame (timeout) or rendering the delivered frame raised. -/
def tickFails (env : TickEnv) : Bool :=
  match env.sensorFrame with
  | none => true
  | some raw =>
    match env.render raw with
    | .ok _ => false
    | .error _ => true

/-- Open and started flags of ArducamDepthCamera
(camera/arducam_depth_camera.py). -/
structure ArducamState where
  is_open : Bool
  is_started : Bool
  deriving DecidableEq

/-- Behaviour of one call to the underlying driver method
ArducamCamera.requestFrame: it may raise, return None, or return a frame
object that may or may not be an instance of ac.DepthData. -/
inductive DriverResult where
  | raises (msg : String)
  | noFrame
  | delivered (isDepthData : Bool) (fid : Nat)
  deriving DecidableEq

/-- Translation of ArducamDepthCamera.request_frame
(arducam_depth_camera.py lines 96 to 108): None when the camera is not
started; inside the try block a delivered ac.DepthData instance is wrapped
as an ArducamDepthFrame and returned and anything else yields None; any
exception is caught and yields None. -/
def request_frame (driver : Int → DriverResult) (s : ArducamState)
    (timeout_ms : Int) : Option Nat :=
  if s.is_started = false then none
  else
    match driver timeout_ms with
    | .raises _ => none
    | .noFrame => none
    | .delivered isDD fid => if isDD then some fid else none

/-- Combined runtime state reachable from the control handler as wired by the
application, together with the video track that the spec expects SetFpsLimit
to reach. -/
structure AppState where
  proc : ProcessorState
  track : TrackState
  deriving DecidableEq

/-- Wiring constructed by DepthStreamerApp.__init__ (main.py lines 38 to 41):
camera_controller is the ArducamDepthCamera instance, whose set_range method
catches internally, never raises and touches none of this state, but which
has no set_confidence_threshold and no set_colormap attribute;
stream_controller is the DepthFrameProcessor, which has no set_fps_limit
attribute (the source comment on that line reads: Will be updated to use
video track).  Attribute lookup on a missing method raises AttributeError
before anything is applied. -/
def mainWiring : Wiring AppState where
  set_range := fun _ st => .ok st
  set_confidence_threshold := fun _ _ =>
    .error "AttributeError: ArducamDepthCamera object has no attribute set_confidence_threshold"
  set_colormap := fun _ _ =>
    .error "AttributeError: ArducamDepthCamera object has no attribute set_colormap"
  set_fps_limit := fun _ _ =>
    .error "AttributeError: DepthFrameProcessor object has no attribute set_fps_limit"

/-- Initial video track state built by the DepthVideoStreamTrack constructor
with its default fps_limit of 30: not running, no cached frame. -/
def initialTrack : TrackState :=
  { running := false, fpsLimit := 30, frameInterval := 1 / 30,
    lastFrameTime := 0, currentFrame := none }

/-- Initial processor state from DepthFrameProcessor.__init__ with the
default max_distance 4000, threshold 30 and cv2.COLORMAP_RAINBOW. -/
def initialProcessor : ProcessorState :=
  { max_distance := 4000, confidence_threshold := 30, colormap := 4 }

/-- Signaling notifications broadcast by join_room and leave_room
(webrtc/signaling_ws.py): the peer_joined and peer_left dicts with their
peer_id field. -/
inductive Msg where
  | peerJoined (peer_id : String)
  | peerLeft (peer_id : String)
  deriving DecidableEq

/-- State owned by SignalingServer (webrtc/signaling_ws.py): the clients dict
keyed by client id (modelled as the list of its keys, the socket values
carrying no further modelled state) and the rooms dict from room id to the
set of member client ids.  Dicts and sets are modelled as lists managed with
set semantics by the operations below. -/
structure SigState where
  clients : List String
  rooms : List (String × List String)
  deriving DecidableEq

/-- Key lookup in the rooms dict. -/
def lookupRoom (rooms : List (String × List String)) (r : String) :
    Option (List String) :=
  (rooms.find? (fun p => p.1 == r)).map (fun p => p.2)

/-- Member set of a room, empty when the room is not registered. -/
def roomMembers (st : SigState) (r : String) : List String :=
  (lookupRoom st.rooms r).getD []

/-- Value replacement at a key of the rooms dict, leaving every other entry
in place. -/
def updateRoom (rooms : List (String × List String)) (r : String)
    (ms : List String) : List (String × List String) :=
  rooms.map (fun p => if p.1 = r then (p.1, ms) else p)

/-- Set insertion into a member list. -/
def setAdd (c : String) (ms : List String) : List String :=
  if c ∈ ms then ms else ms ++ [c]

/-- Translation of SignalingServer.broadcast_to_room (signaling_ws.py lines
162 to 175): nothing when the room is not registered; otherwise one send of
the message to every member of the room that is not the excluded client and
is present in the clients dict.  The returned list pairs each recipient with
the message it is sent. -/
def broadcast_to_room {M : Type} (st : SigState) (room : String) (msg : M)
    (exclude : Option String) : List (String × M) :=
  match lookupRoom st.rooms room with
  | none => []
  | some ms =>
    (ms.filter (fun c => !(exclude == some c) && st.clients.contains c)).map
      (fun c => (c, msg))

/-- Translation of SignalingServer.join_room (signaling_ws.py lines 112 to
124): create the room with an empty set when absent, add the client to its
set, then broadcast peer_joined to the room excluding the joining client. -/
def join_room (st : SigState) (c r : String) : SigState × List (String × Msg) :=
  let rooms1 := if (lookupRoom st.rooms r).isSome then st.rooms
                else st.rooms ++ [(r, [])]
  let rooms2 := updateRoom rooms1 r (setAdd c ((lookupRoom rooms1 r).getD []))
  let st2 : SigState := { st with rooms := rooms2 }
  (st2, broadcast_to_room st2 r (Msg.peerJoined c) (some c))

/-- Translation of SignalingServer.leave_room (signaling_ws.py lines 126 to
139): nothing when the room is not registered; otherwise discard the client
from the member set, delete the room when the set is now empty, and then
broadcast peer_left to the room excluding the leaving client (so nothing is
sent when the room was just deleted). -/
def leave_room (st : SigState) (c r : String) : SigState × List (String × Msg) :=
  match lookupRoom st.rooms r with
  | none => (st, [])
  | some ms =>
    let ms2 := ms.filter (fun x => x ≠ c)
    let rooms2 := if ms2 = [] then st.rooms.filter (fun p => p.1 ≠ r)
                  else updateRoom st.rooms r ms2
    let st2 : SigState := { st with rooms := rooms2 }
    (st2, broadcast_to_room st2 r (Msg.peerLeft c) (some c))

/-- Registration step of SignalingServer.handle_connection (signaling_ws.py
lines 47 to 49): the fresh client id is entered into the clients dict. -/
def handle_connect (st : SigState) (c : String) : SigState :=
  { st with clients := if c ∈ st.clients then st.clients else st.clients ++ [c] }

/-- Cleanup block of SignalingServer.handle_connection (signaling_ws.py lines
67 to 75): the client is removed from the clients dict and discarded from
the member set of every room; no room is deleted and nothing is sent. -/
def handle_disconnect (st : SigState) (c : String) : SigState :=
  { st with
    clients := st.clients.filter (fun x => x ≠ c),
    rooms := st.rooms.map (fun p => (p.1, p.2.filter (fun x => x ≠ c))) }

/-- Operations a signaling client can drive against the router state. -/
inductive SigOp where
  | connect (c : String)
  | disconnect (c : String)
  | join (c r : String)
  | leave (c r : String)
  deriving DecidableEq

/-- Discrimination of a disconnect operation. -/
def SigOp.isDisconnect : SigOp → Bool
  | .disconnect _ => true
  | _ => false

/-- One router step, dropping the broadcast output. -/
def sigStep (st : SigState) : SigOp → SigState
  | .connect c => handle_connect st c
  | .disconnect c => handle_disconnect st c
  | .join c r => (join_room st c r).1
  | .leave c r => (leave_room st c r).1

/-- Replay of a sequence of router operations from the empty initial state of
SignalingServer.__init__. -/
def replay (ops : List SigOp) : SigState :=
  ops.foldl sigStep { clients := [], rooms := [] }

/-- State owned by PeerManager (webrtc/peer_manager.py): the peers dict from
client id to its RTCPeerConnection (handles modelled as the Nat identity of
the connection object), the set of connection handles that have been created
and not closed, and a counter supplying the identity of the next created
connection. -/
structure PeerMgrState where
  peers : List (String × Nat)
  openPCs : List Nat
  nextId : Nat
  deriving DecidableEq

/-- Key lookup in the peers dict. -/
def lookupPeer (peers : List (String × Nat)) (k : String) : Option Nat :=
  (peers.find? (fun p => p.1 == k)).map (fun p => p.2)

/-- Dict assignment peers[peer_id] = pc: replace the value at the existing
key (unique in a Python dict, so the first matching entry), else append the
new entry. -/
def dictInsert : List (String × Nat) → String → Nat → List (String × Nat)
  | [], k, v => [(k, v)]
  | p :: rest, k, v =>
    if p.1 = k then (p.1, v) :: rest else p :: dictInsert rest k v

/-- Translation of PeerManager.create_peer_connection (peer_manager.py lines
26 to 48): construct a fresh RTCPeerConnection, assign it into the peers
dict at peer_id (overwriting any previous binding, with no call to close),
add the shared video track to it and install its event handlers (external
transport effects with no manager state).  Returns the new connection and
the new state. -/
def create_peer_connection (st : PeerMgrState) (peer_id : String) :
    Nat × PeerMgrState :=
  let pc := st.nextId
  (pc, { peers := dictInsert st.peers peer_id pc,
         openPCs := st.openPCs ++ [pc],
         nextId := st.nextId + 1 })

/-- Translation of PeerManager.handle_offer (peer_manager.py lines 50 to 97)
restricted to its manager state effects: the only state change is the call
to create_peer_connection; setting descriptions, creating the answer and the
data channel are external transport calls.  Returns the new state and the
connection whose local description the answer response carries. -/
def handle_offer (st : PeerMgrState) (sender_id : String) : PeerMgrState × Nat :=
  let r := create_peer_connection st sender_id
  (r.2, r.1)

/-- Translation of PeerManager.remove_peer (peer_manager.py lines 122 to
128): when the peer is registered, its connection is closed and the dict
entry deleted. -/
def remove_peer (st : PeerMgrState) (peer_id : String) : PeerMgrState :=
  match lookupPeer st.peers peer_id with
  | none => st
  | some pc =>
    { st with peers := st.peers.filter (fun p => p.1 ≠ peer_id),
              openPCs := st.openPCs.filter (fun x => x ≠ pc) }

/-- Wiring over the unit state in which every controller call raises; used as
a concrete instantiation in witnesses and counterexamples. -/
def failAll : Wiring Unit where
  set_range := fun _ _ => .error "boom"
  set_confidence_threshold := fun _ _ => .error "boom"
  set_colormap := fun _ _ => .error "boom"
  set_fps_limit := fun _ _ => .error "boom"

/-- C1: for every ControlCommand and every behaviour of the wired
controllers, handle_command returns a ControlResponse and never raises: a
controller call that raises with text e is caught at the dispatch boundary
and converted into the response with outcome tag error, command_type the
lowercased class name identifying the command kind, and message e, leaving
the controller state untouched; a successful call yields an ack response. -/
theorem handle_command_never_raises {σ : Type} (w : Wiring σ) (st : σ)
    (cmd : ControlCommand) :
    (∀ e : String, applyCommand w st cmd = .error e →
      handle_command w st cmd = (st, ⟨.error, pyClassName cmd, e⟩)) ∧
    (∀ st2 : σ, applyCommand w st cmd = .ok st2 →
      (handle_command w st cmd).2.rtype = .ack) := by
  constructor
  · intro e h
    cases cmd <;> simp only [applyCommand] at h <;>
      simp [handle_command, h, pyClassName]
  · intro st2 h
    cases cmd <;> simp only [applyCommand] at h <;>
      simp [handle_command, h]

/-- Witness for C1 at a concrete input: the raising wiring on SetRangeCommand
with max_distance 2000 produces exactly the error response with the
lowercased class name and the exception text. -/
theorem handle_command_never_raises_witness :
    handle_command failAll () (.setRange 2000) =
      ((), ⟨.error, "setrangecommand", "boom"⟩) :=
  (handle_command_never_raises failAll () (.setRange 2000)).1 "boom" rfl

/-- C10: for every driver behaviour, camera state and timeout,
request_frame returns none when the camera has not been started, returns
none when the driver raises, and returns a frame only when the camera is
started and the driver delivered an instance of ac.DepthData. -/
theorem request_frame_never_raises (driver : Int → DriverResult)
    (s : ArducamState) (t : Int) :
    (s.is_started = false → request_frame driver s t = none) ∧
    (∀ m, driver t = .raises m → request_frame driver s t = none) ∧
    (∀ fid, request_frame driver s t = some fid →
      s.is_started = true ∧ driver t = .delivered true fid) := by
  refine ⟨fun h => by simp [request_frame, h], fun m h => ?_, fun fid h => ?_⟩
  · cases hs : s.is_started <;> simp [request_frame, hs, h]
  · cases hs : s.is_started
    · simp [request_frame, hs] at h
    · refine ⟨rfl, ?_⟩
      simp only [request_frame, hs] at h
      cases hd : driver t with
      | raises m => rw [hd] at h; simp at h
      | noFrame => rw [hd] at h; simp at h
      | delivered isDD f =>
        rw [hd] at h
        cases isDD
        · simp at h
        · simp at h
          rw [h]

/-- Witness for C10 at concrete inputs: a raising driver on a started camera
gives none, and an unstarted camera gives none. -/
theorem request_frame_never_raises_witness :
    request_frame (fun _ => .raises "boom") ⟨true, true⟩ 2000 = none ∧
    request_frame (fun _ => .noFrame) ⟨true, false⟩ 2000 = none :=
  ⟨(request_frame_never_raises (fun _ => .raises "boom") ⟨true, true⟩ 2000).2.1
      "boom" rfl,
   (request_frame_never_raises (fun _ => .noFrame) ⟨true, false⟩ 2000).1 rfl⟩

/-- C9: dispatching SetColormapCommand through handle_command wired to
DepthFrameProcessor leaves the whole processor state unchanged when the
uppercased name misses the COLORMAPS table, and replaces exactly the
colormap with the table value on a hit, every other runtime parameter kept. -/
theorem set_colormap_dispatch (st : ProcessorState) (name : String) :
    (lookupColormap (pyUpper name) = none →
      (handle_command procWiring st (.setColormap name)).1 = st) ∧
    (∀ v, lookupColormap (pyUpper name) = some v →
      (handle_command procWiring st (.setColormap name)).1 =
        { st with colormap := v }) := by
  constructor
  · intro h
    simp [handle_command, procWiring, set_colormap, h]
  · intro v h
    simp [handle_command, procWiring, set_colormap, h]

/-- Witness for C9 at concrete inputs: the mixed case name jEt is accepted
and sets cv2.COLORMAP_JET, while MAGMA is unsupported and leaves the initial
processor state untouched. -/
theorem set_colormap_dispatch_witness :
    lookupColormap (pyUpper "jEt") = some 2 ∧
    (handle_command procWiring initialProcessor (.setColormap "jEt")).1 =
      { initialProcessor with colormap := 2 } ∧
    lookupColormap (pyUpper "MAGMA") = none ∧
    (handle_command procWiring initialProcessor (.setColormap "MAGMA")).1 =
      initialProcessor :=
  ⟨rfl, (set_colormap_dispatch initialProcessor "jEt").2 2 rfl, rfl,
   (set_colormap_dispatch initialProcessor "MAGMA").1 rfl⟩

/-- C5, divergence of the code from the claim at the failing input: with the
wiring built by DepthStreamerApp.__init__, dispatching SetFpsLimitCommand
with fps 1 raises AttributeError inside the dispatcher (stream_controller is
the DepthFrameProcessor, which has no set_fps_limit), so the response is an
error rather than an ack and no state changes, the video track keeping its
initial limit of 30; the clamp the claim describes does live in
DepthVideoStreamTrack.set_fps_limit, which maps 1 to 5 and 100 to 30, but
the dispatcher never reaches it. -/
theorem set_fps_limit_miswired :
    (handle_command mainWiring ⟨initialProcessor, initialTrack⟩
        (.setFpsLimit 1)).2.rtype = .error ∧
    (handle_command mainWiring ⟨initialProcessor, initialTrack⟩
        (.setFpsLimit 1)).2.command_type = "setfpslimitcommand" ∧
    (handle_command mainWiring ⟨initialProcessor, initialTrack⟩
        (.setFpsLimit 1)).1 = ⟨initialProcessor, initialTrack⟩ ∧
    initialTrack.fpsLimit = 30 ∧
    (track_set_fps_limit initialTrack 1).fpsLimit = 5 ∧
    (track_set_fps_limit initialTrack 100).fpsLimit = 30 := by
  refine ⟨rfl, rfl, rfl, rfl, rfl, rfl⟩

/-- C6, counterexample: a well formed set_range message whose dispatch hits a
raising controller yields a response whose command_type is the lowercased
class name setrangecommand, not the wire type set_range of the command kind,
so the round trip property fails in the error outcome. -/
theorem response_kind_counterexample :
    to_command ⟨"set_range", ⟨some 2000, none, none, none⟩⟩ =
      .ok (.setRange 2000) ∧
    (handle_command failAll () (.setRange 2000)).2.rtype = .error ∧
    (handle_command failAll () (.setRange 2000)).2.command_type =
      "setrangecommand" ∧
    ("setrangecommand" =
      (⟨"set_range", ⟨some 2000, none, none, none⟩⟩ : ControlMessage).mtype) =
      False := by
  refine ⟨rfl, rfl, rfl, by simp⟩

/-- Wire type tag a command acks with: the command_type string literal of the
matching ack branch of handle_command, which is also the type tag
to_command decodes the command from. -/
def wireType : ControlCommand → String
  | .setRange _ => "set_range"
  | .setConfidence _ => "set_confidence_threshold"
  | .setColormap _ => "set_colormap"
  | .setFpsLimit _ => "set_fps_limit"

/-- Shape of every response of handle_command: an ack tagged with the wire
type of the command, or an error tagged with the lowercased class name. -/
theorem handle_command_shape {σ : Type} (w : Wiring σ) (st : σ)
    (cmd : ControlCommand) :
    ((handle_command w st cmd).2.rtype = .ack ∧
      (handle_command w st cmd).2.command_type = wireType cmd) ∨
    ((handle_command w st cmd).2.rtype = .error ∧
      (handle_command w st cmd).2.command_type = pyClassName cmd) := by
  cases cmd with
  | setRange d =>
    cases hw : w.set_range d st with
    | ok st2 => exact Or.inl (by simp [handle_command, hw, wireType])
    | error e => exact Or.inr (by simp [handle_command, hw, pyClassName])
  | setConfidence t =>
    cases hw : w.set_confidence_threshold t st with
    | ok st2 => exact Or.inl (by simp [handle_command, hw, wireType])
    | error e => exact Or.inr (by simp [handle_command, hw, pyClassName])
  | setColormap c =>
    cases hw : w.set_colormap c st with
    | ok st2 => exact Or.inl (by simp [handle_command, hw, wireType])
    | error e => exact Or.inr (by simp [handle_command, hw, pyClassName])
  | setFpsLimit f =>
    cases hw : w.set_fps_limit f st with
    | ok st2 => exact Or.inl (by simp [handle_command, hw, wireType])
    | error e => exact Or.inr (by simp [handle_command, hw, pyClassName])

/-- Decoding fixes the wire type: a message to_command accepts has as mtype
exactly the wire type of the decoded command. -/
theorem wireType_to_command (m : ControlMessage) (cmd : ControlCommand)
    (hok : to_command m = .ok cmd) : wireType cmd = m.mtype := by
  unfold to_command at hok
  split_ifs at hok with h1 h2 h3 h4
  · cases hd : m.payload.max_distance <;> rw [hd] at hok <;> simp at hok
    subst hok; simp [wireType, h1]
  · cases hd : m.payload.threshold <;> rw [hd] at hok <;> simp at hok
    subst hok; simp [wireType, h2]
  · cases hd : m.payload.colormap <;> rw [hd] at hok <;> simp at hok
    subst hok; simp [wireType, h3]
  · cases hd : m.payload.fps <;> rw [hd] at hok <;> simp at hok
    subst hok; simp [wireType, h4]

/-- C6 amended: for every well formed control message, the decoded command
dispatched through handle_command yields a response whose command_type
equals the wire type of the message in the ack outcome, and equals the
lowercased implementation class name of the command in the error outcome. -/
theorem response_command_type {σ : Type} (m : ControlMessage)
    (cmd : ControlCommand) (w : Wiring σ) (st : σ)
    (hok : to_command m = .ok cmd) :
    ((handle_command w st cmd).2.rtype = .ack →
      (handle_command w st cmd).2.command_type = m.mtype) ∧
    ((handle_command w st cmd).2.rtype = .error →
      (handle_command w st cmd).2.command_type = pyClassName cmd) := by
  rcases handle_command_shape w st cmd with ⟨ha, hc⟩ | ⟨ha, hc⟩
  · refine ⟨fun _ => ?_, fun hr => ?_⟩
    · rw [hc, wireType_to_command m cmd hok]
    · rw [ha] at hr; cases hr
  · refine ⟨fun hr => ?_, fun _ => hc⟩
    rw [ha] at hr; cases hr

/-- Witness for the amended C6 at a concrete input: a set_colormap message
dispatched against the processor wiring acks with command_type equal to the
wire type of the message. -/
theorem response_command_type_witness :
    (handle_command procWiring initialProcessor
        (.setColormap "JET")).2.command_type = "set_colormap" :=
  (response_command_type ⟨"set_colormap", ⟨none, none, some "JET", none⟩⟩
    (.setColormap "JET") procWiring initialProcessor rfl).1 rfl

/-- C2: on every tick of the running frame production loop on which the
sensor frame request times out (returns None) or rendering the delivered
frame raises, recv returns the previously cached frame when one exists and
otherwise a blank all zero image sized by the known camera resolution, or
the fixed default 180 by 240 shape when the resolution is unavailable; the
track state is left unchanged and a frame is returned in every case, recv
being total over every modelled outcome of its external calls. -/
theorem recv_degrades_gracefully (env : TickEnv) (s : TrackState)
    (hrun : s.running = true) (hfail : tickFails env = true) :
    recv env s =
      ((match s.currentFrame, env.get_camera_info with
        | some f, _ => f
        | none, .ok info => Frame.zeros info.height info.width
        | none, .error _ => Frame.zeros 180 240), s) := by
  have hreq : requestAndRender env s = fallbackFrame env s := by
    unfold requestAndRender
    unfold tickFails at hfail
    cases he : env.sensorFrame with
    | none => rfl
    | some raw =>
      cases hr : env.render raw with
      | ok f =>
        exfalso
        rw [he] at hfail
        simp [hr] at hfail
      | error e =>
        simp [hr]
  cases hc : s.currentFrame with
  | some f =>
    have hfb : fallbackFrame env s = (f, s) := by
      unfold fallbackFrame; rw [hc]
    by_cases hrl : env.currentTime - s.lastFrameTime < s.frameInterval
    · simp [recv, hrun, hrl, hc]
    · simp [recv, hrun, hrl, hc, hreq, hfb]
  | none =>
    cases hinfo : env.get_camera_info with
    | ok info =>
      have hfb : fallbackFrame env s = (Frame.zeros info.height info.width, s) := by
        unfold fallbackFrame; rw [hc, hinfo]
      by_cases hrl : env.currentTime - s.lastFrameTime < s.frameInterval
      · simp [recv, hrun, hrl, hc, hreq, hfb, hinfo]
      · simp [recv, hrun, hrl, hc, hreq, hfb, hinfo]
    | error e =>
      have hfb : fallbackFrame env s = (Frame.zeros 180 240, s) := by
        unfold fallbackFrame; rw [hc, hinfo]
      by_cases hrl : env.currentTime - s.lastFrameTime < s.frameInterval
      · simp [recv, hrun, hrl, hc, hreq, hfb, hinfo]
      · simp [recv, hrun, hrl, hc, hreq, hfb, hinfo]

/-- Witness for C2 at a concrete input: a running track with no cached frame,
a timed out sensor request and an unavailable camera resolution yields the
blank default 180 by 240 frame and an unchanged state. -/
theorem recv_degrades_gracefully_witness :
    recv ⟨1, none, fun _ => Except.error "err",
        Except.error "RuntimeError: Camera not started"⟩
      ⟨true, 30, 1 / 30, 0, none⟩ =
      (Frame.zeros 180 240, ⟨true, 30, 1 / 30, 0, none⟩) :=
  recv_degrades_gracefully _ _ rfl rfl

/-- Characterization of the recipients of broadcast_to_room: exactly the
registered members of the room other than the excluded client, each paired
with the broadcast message. -/
theorem mem_broadcast_iff {M : Type} (st : SigState) (room : String) (msg : M)
    (exclude : Option String) (x : String) (m : M) :
    (x, m) ∈ broadcast_to_room st room msg exclude ↔
      (m = msg ∧ x ∈ roomMembers st room ∧ x ∈ st.clients ∧
        exclude ≠ some x) := by
  unfold broadcast_to_room roomMembers
  cases h : lookupRoom st.rooms room with
  | none => simp
  | some ms =>
    simp only [List.mem_map, List.mem_filter, Option.getD_some, Bool.and_eq_true,
      Bool.not_eq_true', List.elem_iff, decide_eq_true_eq, beq_eq_false_iff_ne,
      Prod.mk.injEq]
    constructor
    · rintro ⟨a, ⟨hms, hex, hcl⟩, rfl, rfl⟩
      exact ⟨rfl, hms, hcl, hex⟩
    · rintro ⟨rfl, hms, hcl, hex⟩
      exact ⟨x, ⟨hms, hex, hcl⟩, rfl, rfl⟩

/-- C7: for every router state, room, message and excluded sender,
broadcast_to_room sends the message only to clients that are members of the
room and present in the client registry, never to the excluded sender, and
sends nothing at all when the room is not registered. -/
theorem broadcast_to_room_scope {M : Type} (st : SigState) (room : String)
    (msg : M) (exclude : Option String) :
    (∀ x m, (x, m) ∈ broadcast_to_room st room msg exclude →
      m = msg ∧ x ∈ roomMembers st room ∧ x ∈ st.clients ∧
        exclude ≠ some x) ∧
    (lookupRoom st.rooms room = none →
      broadcast_to_room st room msg exclude = []) := by
  constructor
  · intro x m hm
    exact (mem_broadcast_iff st room msg exclude x m).mp hm
  · intro h
    unfold broadcast_to_room
    rw [h]

/-- Witness for C7 at concrete inputs: in a room hosting a and b with a
excluded, the only send goes to b; broadcasting to an unregistered room
sends nothing. -/
theorem broadcast_to_room_scope_witness :
    ("b" ∈ roomMembers ⟨["a", "b"], [("r", ["a", "b"])]⟩ "r" ∧
      "b" ∈ (⟨["a", "b"], [("r", ["a", "b"])]⟩ : SigState).clients ∧
      some "a" ≠ some "b") ∧
    broadcast_to_room (⟨["a", "b"], [("r", ["a", "b"])]⟩ : SigState) "nope"
      (0 : Nat) none = [] :=
  ⟨((broadcast_to_room_scope ⟨["a", "b"], [("r", ["a", "b"])]⟩ "r" (0 : Nat)
      (some "a")).1 "b" 0 (by decide)).2,
   (broadcast_to_room_scope ⟨["a", "b"], [("r", ["a", "b"])]⟩ "nope" (0 : Nat)
      none).2 rfl⟩

/-- Invariant of the room registry the claim is about: every registered room
has a nonempty member set. -/
def roomsNonempty (st : SigState) : Prop := ∀ p ∈ st.rooms, p.2 ≠ []

/-- Set insertion never produces the empty set. -/
theorem setAdd_ne_nil (c : String) (ms : List String) : setAdd c ms ≠ [] := by
  unfold setAdd
  split
  next h => exact List.ne_nil_of_mem h
  next => simp

/-- Preservation of the nonempty room invariant by join_room. -/
theorem roomsNonempty_join (st : SigState) (c r : String)
    (h : roomsNonempty st) : roomsNonempty (join_room st c r).1 := by
  intro p hp
  simp only [join_room, updateRoom, List.mem_map] at hp
  obtain ⟨q, hq, rfl⟩ := hp
  by_cases hqr : q.1 = r
  · simp [hqr, setAdd_ne_nil]
  · simp only [if_neg hqr]
    by_cases hex : (lookupRoom st.rooms r).isSome
    · rw [if_pos hex] at hq
      exact h q hq
    · rw [if_neg hex] at hq
      rcases List.mem_append.mp hq with hq2 | hq2
      · exact h q hq2
      · simp at hq2
        exact absurd (by rw [hq2]) hqr

/-- Preservation of the nonempty room invariant by leave_room: the room is
deleted exactly when its member set would become empty. -/
theorem roomsNonempty_leave (st : SigState) (c r : String)
    (h : roomsNonempty st) : roomsNonempty (leave_room st c r).1 := by
  intro p hp
  simp only [leave_room] at hp
  cases hrk : lookupRoom st.rooms r with
  | none =>
    rw [hrk] at hp
    exact h p hp
  | some ms =>
    rw [hrk] at hp
    simp only at hp
    by_cases hms : ms.filter (fun x => x ≠ c) = []
    · rw [if_pos hms] at hp
      exact h p (List.mem_of_mem_filter hp)
    · rw [if_neg hms] at hp
      simp only [updateRoom, List.mem_map] at hp
      obtain ⟨q, hq, rfl⟩ := hp
      by_cases hqr : q.1 = r
      · simpa [hqr] using hms
      · simp only [if_neg hqr]
        exact h q hq

/-- Preservation of the nonempty room invariant along any replayed sequence
of operations that contains no disconnect. -/
theorem roomsNonempty_foldl (ops : List SigOp)
    (hnd : ∀ op ∈ ops, op.isDisconnect = false) (st : SigState)
    (h : roomsNonempty st) : roomsNonempty (ops.foldl sigStep st) := by
  induction ops generalizing st with
  | nil => exact h
  | cons op ops ih =>
    simp only [List.foldl_cons]
    refine ih (fun o ho => hnd o (List.mem_cons_of_mem _ ho)) _ ?_
    have hop := hnd op (List.mem_cons_self _ _)
    cases op with
    | connect c => exact fun p hp => h p hp
    | disconnect c => simp [SigOp.isDisconnect] at hop
    | join c r => exact roomsNonempty_join st c r h
    | leave c r => exact roomsNonempty_leave st c r h

/-- C3, counterexample: after connect a, join a into room r, then disconnect
a, the room r is still present in the registry although its member set is
empty, because the disconnect cleanup discards the client from every room
but deletes none; this refutes the claimed iff for sequences that include a
disconnect. -/
theorem room_registry_counterexample :
    (lookupRoom (replay [SigOp.connect "a", SigOp.join "a" "r",
        SigOp.disconnect "a"]).rooms "r").isSome = true ∧
    roomMembers (replay [SigOp.connect "a", SigOp.join "a" "r",
        SigOp.disconnect "a"]) "r" = [] := by
  exact ⟨rfl, rfl⟩

/-- C3 amended: for every sequence of join and leave operations (no
disconnect), a room identifier is present in the registry after replay from
the empty state iff the room has at least one member: rooms are created on
the first join naming them and deleted as soon as a leave empties them; the
disconnect path, however, removes members without deleting emptied rooms,
as the counterexample shows. -/
theorem rooms_registered_iff_member (ops : List SigOp)
    (hnd : ∀ op ∈ ops, op.isDisconnect = false) (r : String) :
    (lookupRoom (replay ops).rooms r).isSome = true ↔
      ∃ c, c ∈ roomMembers (replay ops) r := by
  have hne : roomsNonempty (replay ops) :=
    roomsNonempty_foldl ops hnd _ (fun p hp => absurd hp (List.not_mem_nil p))
  constructor
  · intro hs
    rw [Option.isSome_iff_exists] at hs
    obtain ⟨ms, hms⟩ := hs
    obtain ⟨p, hfind, hp2⟩ := Option.map_eq_some'.mp hms
    have hmem : p ∈ (replay ops).rooms := List.mem_of_find?_eq_some hfind
    have hne2 : ms ≠ [] := hp2 ▸ hne p hmem
    obtain ⟨c, hc⟩ := List.exists_mem_of_ne_nil ms hne2
    refine ⟨c, ?_⟩
    unfold roomMembers
    rw [hms]
    exact hc
  · rintro ⟨c, hc⟩
    unfold roomMembers at hc
    cases hl : lookupRoom (replay ops).rooms r with
    | none => rw [hl] at hc; simp at hc
    | some ms => simp [hl]

/-- Witness for the amended C3 at a concrete input: after connect a and join
a into r, the registered room r indeed has a member. -/
theorem rooms_registered_iff_member_witness :
    ∃ c, c ∈ roomMembers (replay [SigOp.connect "a", SigOp.join "a" "r"]) "r" :=
  (rooms_registered_iff_member [SigOp.connect "a", SigOp.join "a" "r"]
    (by decide) "r").mp rfl

/-- Replacement at a key that no entry carries is the identity. -/
theorem updateRoom_of_not_mem (rooms : List (String × List String))
    (r : String) (ms : List String) (hno : ∀ p ∈ rooms, p.1 ≠ r) :
    updateRoom rooms r ms = rooms := by
  unfold updateRoom
  have hpt : ∀ p ∈ rooms, (if p.1 = r then (p.1, ms) else p) = p := by
    intro p hp
    rw [if_neg (hno p hp)]
  rw [List.map_congr_left hpt]
  exact List.map_id rooms

/-- Replacement of the looked up value by itself is the identity on a rooms
dict with distinct keys. -/
theorem updateRoom_self (rooms : List (String × List String)) (r : String)
    (ms : List String) (hnd : (rooms.map Prod.fst).Nodup)
    (h : lookupRoom rooms r = some ms) : updateRoom rooms r ms = rooms := by
  induction rooms with
  | nil => simp [lookupRoom] at h
  | cons a l ih =>
    simp only [List.map_cons, List.nodup_cons] at hnd
    by_cases ha : a.1 = r
    · have hms : ms = a.2 := by
        unfold lookupRoom at h
        rw [List.find?_cons_of_pos _ (by simp [ha])] at h
        simp at h
        exact h.symm
      subst hms
      unfold updateRoom
      simp only [List.map_cons, if_pos ha]
      rw [Prod.mk.eta]
      congr 1
      apply updateRoom_of_not_mem
      intro p hp hpr
      exact hnd.1 (by rw [ha, ← hpr]; exact List.mem_map_of_mem Prod.fst hp)
    · have h2 : lookupRoom l r = some ms := by
        unfold lookupRoom at h ⊢
        rw [List.find?_cons_of_neg _ (by simp [ha])] at h
        exact h
      unfold updateRoom
      simp only [List.map_cons, if_neg ha]
      have := ih hnd.2 h2
      unfold updateRoom at this
      rw [this]

/-- Lookup of a key misses a dict filtered to exclude that key. -/
theorem lookupRoom_filter_self (rooms : List (String × List String))
    (r : String) :
    lookupRoom (rooms.filter (fun p => p.1 ≠ r)) r = none := by
  unfold lookupRoom
  rw [List.find?_eq_none.mpr]
  · rfl
  · intro p hp
    have h2 := (List.mem_filter.mp hp).2
    simp at h2 ⊢
    exact h2

/-- C8, counterexample: client b is not a member of room r, yet its leave
operation broadcasts a peer_left notification to member a; moreover, for a
room left registered but empty by a disconnect, a leave by a non member
deletes the registry entry.  Both refute the claimed no-op. -/
theorem leave_noop_counterexample :
    ("b" ∉ roomMembers (replay [SigOp.connect "a", SigOp.connect "b",
        SigOp.join "a" "r"]) "r") ∧
    (leave_room (replay [SigOp.connect "a", SigOp.connect "b",
        SigOp.join "a" "r"]) "b" "r").2 = [("a", Msg.peerLeft "b")] ∧
    lookupRoom (replay [SigOp.connect "a", SigOp.join "a" "r",
        SigOp.disconnect "a"]).rooms "r" = some [] ∧
    lookupRoom (leave_room (replay [SigOp.connect "a", SigOp.join "a" "r",
        SigOp.disconnect "a"]) "b" "r").1.rooms "r" = none := by
  refine ⟨by decide, rfl, rfl, rfl⟩

/-- C8 amended: a leave for a room the client is not a member of is a no-op
on the client registry and, when the room is absent, on everything; when the
room is registered with a nonempty member set the whole router state is
unchanged, but a peer_left notification for the leaving client is still
broadcast to exactly the registered members of the room other than the
leaver; when the room is registered and already empty, the empty registry
entry is deleted and nothing is sent. -/
theorem leave_room_nonmember (st : SigState) (c r : String)
    (hmem : c ∉ roomMembers st r) (hnd : (st.rooms.map Prod.fst).Nodup) :
    (lookupRoom st.rooms r = none → leave_room st c r = (st, [])) ∧
    (∀ ms, lookupRoom st.rooms r = some ms → ms ≠ [] →
      (leave_room st c r).1 = st ∧
      (∀ x mg, (x, mg) ∈ (leave_room st c r).2 ↔
        (mg = Msg.peerLeft c ∧ x ∈ ms ∧ x ∈ st.clients ∧ x ≠ c))) ∧
    (lookupRoom st.rooms r = some [] →
      (leave_room st c r).1 =
        { st with rooms := st.rooms.filter (fun p => p.1 ≠ r) } ∧
      (leave_room st c r).2 = []) := by
  refine ⟨fun h => by simp [leave_room, h], fun ms hms hne => ?_, fun h => ?_⟩
  · have hc : c ∉ ms := by
      unfold roomMembers at hmem
      rw [hms] at hmem
      exact hmem
    have hfilter : ms.filter (fun x => x ≠ c) = ms := by
      rw [List.filter_eq_self]
      intro a ha
      simp
      exact fun hac => hc (hac ▸ ha)
    have hst : (leave_room st c r).1 = st := by
      simp only [leave_room, hms, hfilter, if_neg hne]
      rw [updateRoom_self st.rooms r ms hnd hms]
    constructor
    · exact hst
    · intro x mg
      have hsends : (leave_room st c r).2 =
          broadcast_to_room st r (Msg.peerLeft c) (some c) := by
        simp only [leave_room, hms, hfilter, if_neg hne]
        rw [updateRoom_self st.rooms r ms hnd hms]
      rw [hsends, mem_broadcast_iff]
      unfold roomMembers
      rw [hms]
      constructor
      · rintro ⟨h1, h2, h3, h4⟩
        refine ⟨h1, h2, h3, fun hxc => h4 (by rw [hxc])⟩
      · rintro ⟨h1, h2, h3, h4⟩
        refine ⟨h1, h2, h3, fun hsome => h4 (Option.some_injective _ hsome).symm⟩
  · have hst : (leave_room st c r).1 =
        { st with rooms := st.rooms.filter (fun p => p.1 ≠ r) } := by
      simp [leave_room, h]
    refine ⟨hst, ?_⟩
    have hsends : (leave_room st c r).2 =
        broadcast_to_room { st with rooms := st.rooms.filter (fun p => p.1 ≠ r) }
          r (Msg.peerLeft c) (some c) := by
      simp [leave_room, h]
    rw [hsends]
    unfold broadcast_to_room
    rw [lookupRoom_filter_self]

/-- Witness for the amended C8 at a concrete input: b leaving room r it is
not in leaves the state unchanged but notifies member a. -/
theorem leave_room_nonmember_witness :
    (leave_room ⟨["a", "b"], [("r", ["a"])]⟩ "b" "r").1 =
      (⟨["a", "b"], [("r", ["a"])]⟩ : SigState) ∧
    ("a", Msg.peerLeft "b") ∈
      (leave_room ⟨["a", "b"], [("r", ["a"])]⟩ "b" "r").2 := by
  have h := (leave_room_nonmember ⟨["a", "b"], [("r", ["a"])]⟩ "b" "r"
    (by decide) (by decide)).2.1 ["a"] rfl (by decide)
  exact ⟨h.1, (h.2 "a" (Msg.peerLeft "b")).mpr (by decide)⟩

/-- Concrete peer manager state with client c holding the open connection 0,
used by the theorems about handle_offer. -/
def pmEx : PeerMgrState := { peers := [("c", 0)], openPCs := [0], nextId := 1 }

/-- C4, counterexample: client c already holds the live connection 0; after
handle_offer the registry binds c to the fresh connection 1, but the prior
connection 0 is still open, no close having been issued, refuting the claim
that the prior transport is closed first and that no replaced transport
handle remains open. -/
theorem handle_offer_counterexample :
    lookupPeer pmEx.peers "c" = some 0 ∧
    lookupPeer (handle_offer pmEx "c").1.peers "c" = some 1 ∧
    0 ∈ (handle_offer pmEx "c").1.openPCs := by
  refine ⟨rfl, rfl, by decide⟩

/-- Lookup after dict assignment returns the assigned value. -/
theorem lookupPeer_dictInsert (l : List (String × Nat)) (k : String) (v : Nat) :
    lookupPeer (dictInsert l k v) k = some v := by
  induction l with
  | nil => simp [dictInsert, lookupPeer, List.find?]
  | cons a l ih =>
    by_cases hak : a.1 = k
    · simp [dictInsert, hak, lookupPeer, List.find?]
    · simp only [dictInsert, if_neg hak]
      unfold lookupPeer
      rw [List.find?_cons_of_neg _ (by simp [hak])]
      exact ih

/-- Dict assignment at a key already present leaves the key list unchanged. -/
theorem dictInsert_keys_of_mem (l : List (String × Nat)) (k : String) (v : Nat)
    (h : (l.find? (fun p => p.1 == k)).isSome = true) :
    (dictInsert l k v).map Prod.fst = l.map Prod.fst := by
  induction l with
  | nil => simp [List.find?] at h
  | cons a l ih =>
    by_cases hak : a.1 = k
    · simp [dictInsert, hak]
    · simp only [dictInsert, if_neg hak, List.map_cons]
      congr 1
      apply ih
      rw [List.find?_cons_of_neg _ (by simp [hak])] at h
      exact h

/-- C4 amended: an incoming offer for an identifier that already holds a live
session overwrites the registry binding with the fresh connection, leaving
exactly the previous identifiers bound (so one session per identifier), but
never closes the prior transport: the prior connection handle stays in the
open set, which only grows. -/
theorem handle_offer_replaces_without_close (st : PeerMgrState) (c : String)
    (oldpc : Nat) (hold : lookupPeer st.peers c = some oldpc)
    (hopen : oldpc ∈ st.openPCs) :
    lookupPeer (handle_offer st c).1.peers c = some st.nextId ∧
    (handle_offer st c).1.peers.map Prod.fst = st.peers.map Prod.fst ∧
    oldpc ∈ (handle_offer st c).1.openPCs ∧
    (∀ x ∈ st.openPCs, x ∈ (handle_offer st c).1.openPCs) := by
  refine ⟨lookupPeer_dictInsert st.peers c st.nextId, ?_, ?_, ?_⟩
  · apply dictInsert_keys_of_mem
    unfold lookupPeer at hold
    cases hf : st.peers.find? (fun p => p.1 == c) with
    | none => rw [hf] at hold; cases hold
    | some p => simp [hf]
  · exact List.mem_append_left _ hopen
  · exact fun x hx => List.mem_append_left _ hx

/-- Witness for the amended C4 at a concrete input: with c bound to the open
connection 0, an offer rebinds c to connection 1 while 0 stays open. -/
theorem handle_offer_replaces_without_close_witness :
    lookupPeer (handle_offer pmEx "c").1.peers "c" = some 1 ∧
    0 ∈ (handle_offer pmEx "c").1.openPCs := by
  have h := handle_offer_replaces_without_close pmEx "c" 0 rfl (by decide)
  exact ⟨h.1, h.2.2.1⟩

end DepthStreamer
